import Mathlib

/-!
Shallow embedding of the ink!-based ERC20-style token contract `Teste`
(`src/lib.rs`).  Accounts are modelled as natural numbers (the source's
`AccountId` is an opaque, equality-comparable identity), balances as natural
numbers below `2 ^ 128` (the source's `Balance` is the SRML default `u128`;
the one unchecked addition in `transfer_impl` is embedded with an explicit
`% 2 ^ 128`, matching release-mode wrapping semantics of `u128`).  The two
storage `HashMap`s are embedded as association lists with insert-or-replace
update and lookup-or-zero reads, exactly the access pattern of
`balance_of_or_zero` / `allowance_or_zero` / `insert` in the source.
-/

namespace SmartContractTeste

abbrev AccountId := Nat

abbrev Balance := Nat

/-- `Balance` in the source is `u128`; additions wrap at this modulus. -/
def U128LIM : Nat := 2 ^ 128

/-- Lookup in an association list, defaulting to `0` for an absent key:
the behaviour of `self.balances.get(of).unwrap_or(&0)` in the source. -/
def lookupOrZero {α : Type} [DecidableEq α] (m : List (α × Nat)) (k : α) : Nat :=
  match m with
  | [] => 0
  | (k', v) :: rest => if k' = k then v else lookupOrZero rest k

/-- Insert-or-replace in an association list: the behaviour of
`HashMap::insert` in the source (old value, if any, is overwritten). -/
def insertMap {α : Type} [DecidableEq α] (m : List (α × Nat)) (k : α) (v : Nat) :
    List (α × Nat) :=
  match m with
  | [] => [(k, v)]
  | (k', v') :: rest =>
    if k' = k then (k, v) :: rest else (k', v') :: insertMap rest k v

/-- The two events the contract emits (`event Transfer` / `event Approval`
in the source; `Transfer.from` is `None` only for the issuance event). -/
inductive Event : Type
  | Transfer : Option AccountId → Option AccountId → Balance → Event
  | Approval : AccountId → AccountId → Balance → Event
deriving DecidableEq, Repr

/-- The contract storage (`struct Teste` in the source): total supply,
per-account balances, and `(owner, spender) → allowed` allowances. -/
structure Teste : Type where
  total_supply : Balance
  balances : List (AccountId × Balance)
  allowances : List ((AccountId × AccountId) × Balance)
deriving DecidableEq, Repr

namespace Teste

/-- `fn balance_of_or_zero`: stored balance, or `0` if absent. -/
def balance_of_or_zero (s : Teste) (of : AccountId) : Balance :=
  lookupOrZero s.balances of

/-- `fn allowance_or_zero`: stored allowance, or `0` if absent. -/
def allowance_or_zero (s : Teste) (owner spender : AccountId) : Balance :=
  lookupOrZero s.allowances (owner, spender)

/-- `pub(external) fn balance_of` (the debug print is side-effect free). -/
def balance_of (s : Teste) (owner : AccountId) : Balance :=
  s.balance_of_or_zero owner

/-- `pub(external) fn allowance` (the debug print is side-effect free). -/
def allowance (s : Teste) (owner spender : AccountId) : Balance :=
  s.allowance_or_zero owner spender

/-- `fn deploy`: run once on fresh (empty) storage; sets the total supply,
credits the deploying caller with the whole supply, and emits the issuance
`Transfer` event with no source account. -/
def deploy (caller : AccountId) (init_value : Balance) : Teste × List Event :=
  ({ total_supply := init_value,
     balances := insertMap [] caller init_value,
     allowances := [] },
   [Event.Transfer none (some caller) init_value])

/-- `fn transfer_impl`: reads both balances first, rejects with `false` when
`balance_from < value`, otherwise writes `from ↦ balance_from - value`, then
`to_ ↦ balance_to + value` (unchecked `u128` addition, hence the modulus), and
emits one `Transfer` event.  Returns `(success, new state, emitted events)`. -/
def transfer_impl (s : Teste) (from_ to_ : AccountId) (value : Balance) :
    Bool × Teste × List Event :=
  let balance_from := s.balance_of_or_zero from_
  let balance_to := s.balance_of_or_zero to_
  if balance_from < value then
    (false, s, [])
  else
    (true,
     { s with
        balances :=
          insertMap (insertMap s.balances from_ (balance_from - value)) to_
            ((balance_to + value) % U128LIM) },
     [Event.Transfer (some from_) (some to_) value])

/-- `pub(external) fn transfer`: the caller is the source account. -/
def transfer (s : Teste) (caller to_ : AccountId) (value : Balance) :
    Bool × Teste × List Event :=
  s.transfer_impl caller to_ value

/-- `pub(external) fn approve`: unconditionally overwrites the allowance of
`(caller, spender)`, emits one `Approval` event, returns `true`. -/
def approve (s : Teste) (caller spender : AccountId) (value : Balance) :
    Bool × Teste × List Event :=
  (true,
   { s with allowances := insertMap s.allowances (caller, spender) value },
   [Event.Approval caller spender value])

/-- `pub(external) fn transfer_from`: rejects when the caller's allowance
from `from_` is below `value`; otherwise first decreases that allowance by
`value` and only then attempts the balance move via `transfer_impl`. -/
def transfer_from (s : Teste) (caller from_ to_ : AccountId) (value : Balance) :
    Bool × Teste × List Event :=
  let al := s.allowance_or_zero from_ caller
  if al < value then
    (false, s, [])
  else
    let s1 : Teste :=
      { s with allowances := insertMap s.allowances (from_, caller) (al - value) }
    s1.transfer_impl from_ to_ value

/-- The sum of all stored balances (`sum(BalanceTable.values())`). -/
def sumBalances (s : Teste) : Nat :=
  (s.balances.map Prod.snd).sum

end Teste

/-- An external mutating call into the contract, with the caller identity
the host would supply. -/
inductive Op : Type
  | transferOp : AccountId → AccountId → Balance → Op
  | approveOp : AccountId → AccountId → Balance → Op
  | transferFromOp : AccountId → AccountId → AccountId → Balance → Op
deriving DecidableEq, Repr

/-- Execute one external call, keeping only the post-state. -/
def Teste.applyOp (s : Teste) : Op → Teste
  | Op.transferOp caller to_ v => (s.transfer caller to_ v).2.1
  | Op.approveOp caller spender v => (s.approve caller spender v).2.1
  | Op.transferFromOp caller from_ to_ v => (s.transfer_from caller from_ to_ v).2.1

/-- Execute a sequence of external calls. -/
def Teste.run (s : Teste) : List Op → Teste
  | [] => s
  | op :: ops => (s.applyOp op).run ops

/-- State after account `0` deploys the contract with an initial supply of
`10` tokens. -/
def stateA : Teste := (Teste.deploy 0 10).1

/-- State after account `0` deploys the contract with an initial supply of
`1234` tokens (the supply used by the source's own tests). -/
def stateRich : Teste := (Teste.deploy 0 1234).1

/-- State after account `0` deploys the contract with the largest
representable `u128` supply. -/
def stateMax : Teste := (Teste.deploy 0 (U128LIM - 1)).1

/-- State after account `0` deploys with supply `0` and then approves
account `1` to spend `5` tokens: the allowance exceeds the balance. -/
def stateAllow : Teste := ((Teste.deploy 0 0).1.approve 0 1 5).2.1

/-- Looking up the key just inserted returns the inserted value. -/
theorem lookupOrZero_insertMap_self {α : Type} [DecidableEq α]
    (m : List (α × Nat)) (k : α) (v : Nat) :
    lookupOrZero (insertMap m k v) k = v := by
  induction m with
  | nil => simp [insertMap, lookupOrZero]
  | cons p rest ih =>
    obtain ⟨k', v'⟩ := p
    by_cases h : k' = k
    · subst h
      simp [insertMap, lookupOrZero]
    · simp [insertMap, lookupOrZero, h, ih]

/-- Looking up any other key is unaffected by an insert. -/
theorem lookupOrZero_insertMap_ne {α : Type} [DecidableEq α]
    (m : List (α × Nat)) (k k' : α) (v : Nat) (h : ¬ k' = k) :
    lookupOrZero (insertMap m k v) k' = lookupOrZero m k' := by
  have hsym : ¬ k = k' := fun hh => h hh.symm
  induction m with
  | nil => simp [insertMap, lookupOrZero, hsym]
  | cons p rest ih =>
    obtain ⟨k'', v''⟩ := p
    by_cases h2 : k'' = k
    · subst h2
      simp [insertMap, lookupOrZero, hsym]
    · simp [insertMap, lookupOrZero, h2, ih]

/-- Claim C1 (code_bug evidence): conservation fails on the code.  After
deploying with supply `10`, the single-operation sequence consisting of the
self-transfer `transfer(0, 0, 5)` yields a state whose stored balances sum to
`15` while `total_supply` is still `10`: `transfer_impl` reads both balances
before writing, so the write `to ↦ balance_to + value` overwrites the debit
when `from = to`. -/
theorem conservation_violated_by_self_transfer :
    (stateA.run [Op.transferOp 0 0 5]).total_supply = 10 ∧
    Teste.sumBalances (stateA.run [Op.transferOp 0 0 5]) = 15 := by
  decide

/-- Claim C2 (code_bug evidence): a self-transfer of `5` from a balance of
`10` passes the balance check, returns `true` and emits exactly one
`Transfer` event, but leaves the account holding `15`, not `10`: the claim's
"numerically unchanged" fails on the code. -/
theorem self_transfer_inflates_balance :
    5 ≤ stateA.balance_of 0 ∧
    (stateA.transfer 0 0 5).1 = true ∧
    (stateA.transfer 0 0 5).2.2 = [Event.Transfer (some 0) (some 0) 5] ∧
    (stateA.transfer 0 0 5).2.1.balance_of 0 = 15 ∧
    ¬ (stateA.transfer 0 0 5).2.1.balance_of 0 = stateA.balance_of 0 := by
  decide

/-- Claim C3 (counterexample): with `A = B = 0` and `v = 5 ≤ balance 10`, the
transfer returns `true` but the resulting balance of `A` is `15`, not
`b - v = 5`, so the claim quantified over every pair of accounts fails. -/
theorem transfer_correct_fails_on_self_transfer :
    5 ≤ stateA.balance_of 0 ∧
    (stateA.transfer 0 0 5).1 = true ∧
    ¬ (stateA.transfer 0 0 5).2.1.balance_of 0 = stateA.balance_of 0 - 5 := by
  decide

/-- Claim C3 (amended): for distinct accounts `A ≠ B`, and a credit that
stays below `2 ^ 128`, `transfer` returns `true` with `A` debited and `B`
credited by exactly `v` iff `v ≤ balance_of A`, and otherwise returns
`false` leaving the state untouched and emitting nothing. -/
theorem transfer_correct_for_distinct_accounts (s : Teste) (A B : AccountId)
    (v : Balance) (hAB : ¬ A = B) (hov : s.balance_of B + v < U128LIM) :
    if v ≤ s.balance_of A then
      (s.transfer A B v).1 = true ∧
      (s.transfer A B v).2.1.balance_of A = s.balance_of A - v ∧
      (s.transfer A B v).2.1.balance_of B = s.balance_of B + v
    else
      s.transfer A B v = (false, s, []) := by
  by_cases hv : v ≤ s.balance_of A
  · have hnot : ¬ lookupOrZero s.balances A < v := not_lt.mpr hv
    have hmod : (lookupOrZero s.balances B + v) % U128LIM = s.balance_of B + v :=
      Nat.mod_eq_of_lt hov
    simp only [hv, if_true]
    refine ⟨?_, ?_, ?_⟩ <;>
      simp [Teste.transfer, Teste.transfer_impl, hnot, Teste.balance_of,
        Teste.balance_of_or_zero, lookupOrZero_insertMap_self,
        lookupOrZero_insertMap_ne, hAB, hmod]
  · have hlt : lookupOrZero s.balances A < v := not_le.mp hv
    simp [hv, Teste.transfer, Teste.transfer_impl, Teste.balance_of_or_zero, hlt]

/-- Claim C3 (witness for the amended theorem at concrete inputs). -/
theorem transfer_correct_for_distinct_accounts_witness :
    (¬ (0 : AccountId) = 1) ∧ stateA.balance_of 1 + 3 < U128LIM ∧
    (if 3 ≤ stateA.balance_of 0 then
      (stateA.transfer 0 1 3).1 = true ∧
      (stateA.transfer 0 1 3).2.1.balance_of 0 = stateA.balance_of 0 - 3 ∧
      (stateA.transfer 0 1 3).2.1.balance_of 1 = stateA.balance_of 1 + 3
    else
      stateA.transfer 0 1 3 = (false, stateA, [])) :=
  ⟨by decide, by decide,
   transfer_correct_for_distinct_accounts stateA 0 1 3 (by decide) (by decide)⟩

/-- Claim C4 (counterexample): a `transfer_from` whose allowance check passed
(`allowance = 5 ≥ 3`) but whose debit fails (`balance = 0 < 3`) returns
`false`, yet the allowance drops from `5` to `2`: state is mutated, refuting
"no state is mutated" for this failing operation. -/
theorem insufficient_funds_still_mutates_allowance :
    3 ≤ stateAllow.allowance 0 1 ∧
    stateAllow.balance_of 0 < 3 ∧
    (stateAllow.transfer_from 1 0 2 3).1 = false ∧
    ¬ (stateAllow.transfer_from 1 0 2 3).2.1.allowance 0 1 =
        stateAllow.allowance 0 1 := by
  decide

/-- Claim C4 (amended): an operation that fails on insufficient source
balance returns `false`, leaves every balance and the total supply
untouched, and emits no event; for `transfer_from` whose allowance check had
already passed, the allowance of `(from, caller)` is nevertheless left
decreased by `value` (not rolled back). -/
theorem insufficient_funds_rejected_without_balance_mutation (s : Teste)
    (caller from_ to_ : AccountId) (v : Balance)
    (hbal : s.balance_of from_ < v) :
    s.transfer from_ to_ v = (false, s, []) ∧
    (v ≤ s.allowance from_ caller →
      (s.transfer_from caller from_ to_ v).1 = false ∧
      (s.transfer_from caller from_ to_ v).2.1.balances = s.balances ∧
      (s.transfer_from caller from_ to_ v).2.1.total_supply = s.total_supply ∧
      (s.transfer_from caller from_ to_ v).2.2 = [] ∧
      (s.transfer_from caller from_ to_ v).2.1.allowance from_ caller =
        s.allowance from_ caller - v) := by
  have hb : lookupOrZero s.balances from_ < v := hbal
  constructor
  · simp [Teste.transfer, Teste.transfer_impl, Teste.balance_of_or_zero, hb]
  · intro hal
    have hnot : ¬ lookupOrZero s.allowances (from_, caller) < v := not_lt.mpr hal
    refine ⟨?_, ?_, ?_, ?_, ?_⟩ <;>
      simp [Teste.transfer_from, Teste.transfer_impl, Teste.allowance,
        Teste.allowance_or_zero, Teste.balance_of_or_zero, hnot, hb,
        lookupOrZero_insertMap_self]

/-- Claim C4 (witness for the amended theorem at concrete inputs). -/
theorem insufficient_funds_rejected_without_balance_mutation_witness :
    stateAllow.balance_of 0 < 3 ∧
    (stateAllow.transfer 0 2 3 = (false, stateAllow, []) ∧
     (3 ≤ stateAllow.allowance 0 1 →
       (stateAllow.transfer_from 1 0 2 3).1 = false ∧
       (stateAllow.transfer_from 1 0 2 3).2.1.balances = stateAllow.balances ∧
       (stateAllow.transfer_from 1 0 2 3).2.1.total_supply =
         stateAllow.total_supply ∧
       (stateAllow.transfer_from 1 0 2 3).2.2 = [] ∧
       (stateAllow.transfer_from 1 0 2 3).2.1.allowance 0 1 =
         stateAllow.allowance 0 1 - 3)) :=
  ⟨by decide,
   insufficient_funds_rejected_without_balance_mutation stateAllow 1 0 2 3
     (by decide)⟩

/-- Claim C5: when the allowance check passes (`value ≤ allowance`) but the
balance debit fails (`balance_of from < value`), `transfer_from` returns
`false`, emits nothing, leaves the balance table untouched, and yet leaves
the allowance of `(from, caller)` decreased by `value`. -/
theorem failed_transfer_from_consumes_allowance (s : Teste)
    (caller from_ to_ : AccountId) (v : Balance)
    (hallow : v ≤ s.allowance from_ caller) (hbal : s.balance_of from_ < v) :
    (s.transfer_from caller from_ to_ v).1 = false ∧
    (s.transfer_from caller from_ to_ v).2.2 = [] ∧
    (s.transfer_from caller from_ to_ v).2.1.balances = s.balances ∧
    (s.transfer_from caller from_ to_ v).2.1.allowance from_ caller =
      s.allowance from_ caller - v := by
  have hb : lookupOrZero s.balances from_ < v := hbal
  have hnot : ¬ lookupOrZero s.allowances (from_, caller) < v := not_lt.mpr hallow
  refine ⟨?_, ?_, ?_, ?_⟩ <;>
    simp [Teste.transfer_from, Teste.transfer_impl, Teste.allowance,
      Teste.allowance_or_zero, Teste.balance_of_or_zero, hnot, hb,
      lookupOrZero_insertMap_self]

/-- Claim C5 (witness at concrete inputs: allowance 5, balance 0, value 3). -/
theorem failed_transfer_from_consumes_allowance_witness :
    3 ≤ stateAllow.allowance 0 1 ∧ stateAllow.balance_of 0 < 3 ∧
    ((stateAllow.transfer_from 1 0 2 3).1 = false ∧
     (stateAllow.transfer_from 1 0 2 3).2.2 = [] ∧
     (stateAllow.transfer_from 1 0 2 3).2.1.balances = stateAllow.balances ∧
     (stateAllow.transfer_from 1 0 2 3).2.1.allowance 0 1 =
       stateAllow.allowance 0 1 - 3) :=
  ⟨by decide, by decide,
   failed_transfer_from_consumes_allowance stateAllow 1 0 2 3 (by decide)
     (by decide)⟩

/-- Claim C6: when the caller's allowance from `from` is below `value`,
`transfer_from` returns `false` immediately, with the state returned
unchanged and no event emitted. -/
theorem insufficient_allowance_rejected (s : Teste)
    (caller from_ to_ : AccountId) (v : Balance)
    (h : s.allowance from_ caller < v) :
    s.transfer_from caller from_ to_ v = (false, s, []) := by
  have h' : lookupOrZero s.allowances (from_, caller) < v := h
  simp [Teste.transfer_from, Teste.allowance_or_zero, h']

/-- Claim C6 (witness: allowance 0 < 1 rejects untouched). -/
theorem insufficient_allowance_rejected_witness :
    stateA.allowance 0 1 < 1 ∧
    stateA.transfer_from 1 0 2 1 = (false, stateA, []) :=
  ⟨by decide, insufficient_allowance_rejected stateA 1 0 2 1 (by decide)⟩

/-- Claim C7: after `A` approves `B` for `20`, a `transfer_from` by caller
`B` moving `10` from `A` to `C` returns `true`, leaves `allowance(A, B) =
10`, and increases `balance_of C` by exactly `10` (stated for any starting
state with `balance_of A ≥ 10` and a non-overflowing credit). -/
theorem transfer_from_decrements_allowance_exactly (s : Teste)
    (A B C : AccountId) (hbal : 10 ≤ s.balance_of A)
    (hov : s.balance_of C + 10 < U128LIM) :
    (((s.approve A B 20).2.1).transfer_from B A C 10).1 = true ∧
    (((s.approve A B 20).2.1).transfer_from B A C 10).2.1.allowance A B = 10 ∧
    (((s.approve A B 20).2.1).transfer_from B A C 10).2.1.balance_of C =
      s.balance_of C + 10 := by
  have hb : ¬ lookupOrZero s.balances A < 10 := not_lt.mpr hbal
  have hmod : (lookupOrZero s.balances C + 10) % U128LIM = s.balance_of C + 10 :=
    Nat.mod_eq_of_lt hov
  refine ⟨?_, ?_, ?_⟩ <;>
    simp [Teste.approve, Teste.transfer_from, Teste.transfer_impl,
      Teste.allowance, Teste.allowance_or_zero, Teste.balance_of,
      Teste.balance_of_or_zero, lookupOrZero_insertMap_self, hb, hmod]

/-- Claim C7 (witness at the source test's deployment state). -/
theorem transfer_from_decrements_allowance_exactly_witness :
    10 ≤ stateRich.balance_of 0 ∧ stateRich.balance_of 2 + 10 < U128LIM ∧
    ((((stateRich.approve 0 1 20).2.1).transfer_from 1 0 2 10).1 = true ∧
     (((stateRich.approve 0 1 20).2.1).transfer_from 1 0 2 10).2.1.allowance
        0 1 = 10 ∧
     (((stateRich.approve 0 1 20).2.1).transfer_from 1 0 2 10).2.1.balance_of
        2 = stateRich.balance_of 2 + 10) :=
  ⟨by decide, by decide,
   transfer_from_decrements_allowance_exactly stateRich 0 1 2 (by decide)
     (by decide)⟩

/-- Claim C8: `approve` is an absolute set: approving `x` and then `y` for
the same `(owner, spender)` pair leaves the allowance at `y`; both calls
return `true`, neither touches the balance table, and each emits exactly the
one `Approval` event carrying the caller, spender and value. -/
theorem approve_is_absolute_set (s : Teste) (A B : AccountId) (x y : Balance) :
    (s.approve A B x).1 = true ∧
    ((s.approve A B x).2.1.approve A B y).1 = true ∧
    ((s.approve A B x).2.1.approve A B y).2.1.allowance A B = y ∧
    (s.approve A B x).2.1.balances = s.balances ∧
    ((s.approve A B x).2.1.approve A B y).2.1.balances = s.balances ∧
    (s.approve A B x).2.2 = [Event.Approval A B x] ∧
    ((s.approve A B x).2.1.approve A B y).2.2 = [Event.Approval A B y] := by
  refine ⟨rfl, rfl, ?_, rfl, rfl, rfl, rfl⟩
  simp [Teste.approve, Teste.allowance, Teste.allowance_or_zero,
    lookupOrZero_insertMap_self]

/-- Claim C9 (code_bug evidence): the credit `balance_to + value` is an
unchecked `u128` addition, so from the reachable state with balance
`2 ^ 128 - 1` a self-transfer of `1` returns `true` and silently wraps the
balance to `0` instead of rejecting with an unrecoverable error. -/
theorem credit_overflow_wraps_silently :
    stateMax.balance_of 0 = U128LIM - 1 ∧
    (stateMax.transfer 0 0 1).1 = true ∧
    (stateMax.transfer 0 0 1).2.1.balance_of 0 = 0 := by
  decide

/-- Claim C10: `transfer_from` applies the allowance check even when the
caller is the owner: with `caller = from`, a sufficient balance, and
`allowance(from, from) < value`, the call is rejected with no state change
and no event. -/
theorem transfer_from_requires_self_allowance (s : Teste) (A to_ : AccountId)
    (v : Balance) (hbal : v ≤ s.balance_of A)
    (hallow : s.allowance A A < v) :
    s.transfer_from A A to_ v = (false, s, []) := by
  have h' : lookupOrZero s.allowances (A, A) < v := hallow
  simp [Teste.transfer_from, Teste.allowance_or_zero, h']

/-- Claim C10 (witness: balance 10 ≥ 5 but self-allowance 0 < 5). -/
theorem transfer_from_requires_self_allowance_witness :
    5 ≤ stateA.balance_of 0 ∧ stateA.allowance 0 0 < 5 ∧
    stateA.transfer_from 0 0 1 5 = (false, stateA, []) :=
  ⟨by decide, by decide,
   transfer_from_requires_self_allowance stateA 0 1 5 (by decide) (by decide)⟩

end SmartContractTeste
